import Mathlib

/-!
# Verification of the MARTA arrivals caching proxy

Shallow embedding of `src/app/api/realtime/route.ts`: a TTL cache in front
of an upstream transit-arrivals API, with single-flight refresh
deduplication, stale-serving on failure, and a self-rearming retry timer.

Modelling conventions:
* Arrival records are opaque to the cache, so the embedding is parametric
  in the record type `α` (the source stores `unknown[]`).
* JavaScript timestamps (`Date.now()`) are integers; each entry point takes
  the call's timestamp `t : Int` explicitly, standing for `now()`.
* The upstream `fetch` transport is an oracle: a `FetchOutcome` value says
  whether the transport promise rejected, and otherwise carries the
  response's `ok`/`status` flags and the outcomes of `text()` / `json()`.
* Module-level mutable state (`cache`, `retryTimer`) becomes an explicit
  `SysState` threaded through each operation.  The retry timer is modelled
  by the delay it was armed with (`Option Int`).
* The single-flight promise (`inFlightRefresh`) only matters under
  concurrency; a separate event-loop model (`LoopState`, `enterRefresh`,
  `resolveRefresh`) captures the cooperative interleaving of N callers.
-/

set_option maxRecDepth 2048

namespace Marta

/-- `CACHE_TTL_MS = 60_000` from the source. -/
def CACHE_TTL_MS : Int := 60000

/-- `RETRY_INTERVAL_MS = 2_000` from the source. -/
def RETRY_INTERVAL_MS : Int := 2000

/-- The `UpstreamResult` union type of the source:
`{ok: true; payload}` or `{ok: false; status; upstream}`. -/
inductive UpstreamResult (α : Type) where
  | ok (payload : List α)
  | err (status : Nat) (upstream : String)
  deriving Repr, DecidableEq

/-- Whether an `UpstreamResult` is the success variant. -/
def UpstreamResult.isOk {α : Type} : UpstreamResult α → Bool
  | .ok _ => true
  | .err _ _ => false

/-- The outcome of the two response-body promises inside `fetchFromMarta`:
`textResult = none` models `response.text()` rejecting; `jsonResult = .error m`
models `response.json()` throwing an `Error` with message `m`. -/
structure HttpResponse (α : Type) where
  ok : Bool
  status : Nat
  textResult : Option String
  jsonResult : Except String (List α)

/-- Oracle for one invocation of the `fetch` transport.  `reject e` models the
transport promise rejecting (`e = some m`: an `Error` with message `m`;
`e = none`: a thrown non-`Error` value). -/
inductive FetchOutcome (α : Type) where
  | reject (err : Option String)
  | resolve (r : HttpResponse α)

/-- An outcome on which `fetchFromMarta` hits its outer `catch` handler:
either the transport rejected, or the body was fetched with `ok` status but
`response.json()` threw (malformed JSON). -/
def FetchOutcome.raises {α : Type} : FetchOutcome α → Bool
  | .reject _ => true
  | .resolve r => r.ok && (match r.jsonResult with | .error _ => true | .ok _ => false)

/-- `fetchFromMarta` from the source, as a function of the transport oracle.
Mirrors: non-`ok` responses return `{ok:false, status, upstream}` with the
body truncated to 500 characters (empty body → `"No response body."`, and a
rejecting `text()` is caught into `""`); a successful parse returns the
payload; any exception is caught into `{ok:false, status: 500}` with the
error's message (or `"Unknown error."` for a non-`Error` throw). -/
def fetchFromMarta {α : Type} (o : FetchOutcome α) : UpstreamResult α :=
  match o with
  | .reject e => .err 500 (e.getD "Unknown error.")
  | .resolve r =>
    if !r.ok then
      let errorText := ((r.textResult.getD "").toList.take 500).asString
      .err r.status (if errorText.isEmpty then "No response body." else errorText)
    else
      match r.jsonResult with
      | .ok payload => .ok payload
      | .error e => .err 500 e

/-- The module-level mutable state of the source: the `cache` record
(`payload`, `fetchedAt`) and the retry timer (`none` = no timer pending;
`some d` = a timer armed with delay `d`). -/
structure SysState (α : Type) where
  payload : Option (List α)
  fetchedAt : Int
  retryTimer : Option Int
  deriving Repr, DecidableEq

/-- The initial module state: `cache = {payload: null, fetchedAt: 0}`,
`retryTimer = null`. -/
def initState (α : Type) : SysState α :=
  { payload := none, fetchedAt := 0, retryTimer := none }

/-- A sample populated state whose retry timer is armed, used to instantiate
the invariant theorem at a concrete input. -/
def armedState : SysState Nat :=
  { payload := some [7], fetchedAt := 0, retryTimer := some 2000 }

/-- `hasFreshCache`: the cache payload is present and younger than the TTL. -/
def hasFreshCache {α : Type} (s : SysState α) (t : Int) : Bool :=
  s.payload.isSome && decide (t - s.fetchedAt < CACHE_TTL_MS)

/-- `scheduleRetry`: arm the retry timer with `RETRY_INTERVAL_MS` unless one
is already pending. -/
def scheduleRetry {α : Type} (s : SysState α) : SysState α :=
  if s.retryTimer.isSome then s
  else { s with retryTimer := some RETRY_INTERVAL_MS }

/-- The body of the async closure inside `refreshCache`, applied to the
already-computed `fetchFromMarta` result: on success replace the cache with
the new payload and the current timestamp and clear any retry timer; on
failure leave the cache as is, arming a retry only when a prior payload
exists and the status is 500.  Returns the boolean the promise resolves to
together with the updated state. -/
def refreshStep {α : Type} (s : SysState α) (t : Int) (r : UpstreamResult α) :
    Bool × SysState α :=
  match r with
  | .ok payload =>
    (true, { payload := some payload, fetchedAt := t, retryTimer := none })
  | .err status _ =>
    if s.payload.isSome && decide (status = 500) then (false, scheduleRetry s)
    else (false, s)

/-- `refreshCache` for a single caller (no refresh already in flight): fetch
from the upstream and run `refreshStep` on the result. -/
def refreshCache {α : Type} (s : SysState α) (t : Int) (o : FetchOutcome α) :
    Bool × SysState α :=
  refreshStep s t (fetchFromMarta o)

/-- The retry timer's callback in `scheduleRetry`: clear the timer handle,
run `refreshCache`, and re-arm on failure (`refreshStep` itself may already
have re-armed, making the trailing `scheduleRetry` a no-op). -/
def retryFire {α : Type} (s : SysState α) (t : Int) (o : FetchOutcome α) :
    SysState α :=
  let s0 : SysState α := { s with retryTimer := none }
  let res := refreshCache s0 t o
  if res.1 then res.2 else scheduleRetry res.2

/-- The value of a `NextResponse.json` produced by the `GET` handler:
either a data response `{data, cache: {hit, stale, ageMs}}` with an optional
advisory `message`, or an error response with its HTTP status, `message`,
and optional `upstream` detail. -/
inductive GetResult (α : Type) where
  | success (data : List α) (hit : Bool) (stale : Bool) (ageMs : Int)
      (message : Option String)
  | error (status : Nat) (message : String) (upstream : Option String)
  deriving Repr, DecidableEq

/-- Whether a `GetResult` is the error variant. -/
def GetResult.isError {α : Type} : GetResult α → Bool
  | .success _ _ _ _ _ => false
  | .error _ _ _ => true

/-- What one run of the `GET` handler produces: the response, the module
state it leaves behind, and how many upstream `fetch` calls it performed. -/
structure GetOutput (α : Type) where
  result : GetResult α
  state : SysState α
  upstreamCalls : Nat
  deriving Repr, DecidableEq

/-- `!apiKey` in the source: the env var is absent or the empty string. -/
def missingKey (apiKey : Option String) : Bool :=
  apiKey.isNone || decide (apiKey = some "")

/-- The `GET` handler, for a single request with no refresh already in
flight.  `o1` is the transport oracle consumed by the deduplicated refresh,
`o2` the one consumed by the cold-start `lastAttempt` fetch (when reached).
Mirrors the source's four-way flow: missing-credential error; fresh-cache
hit; refresh then (success | stale fallback | last attempt). -/
def GET {α : Type} (apiKey : Option String) (s : SysState α) (t : Int)
    (o1 o2 : FetchOutcome α) : GetOutput α :=
  if missingKey apiKey then
    { result := .error 500 "Missing MARTA_API_KEY environment variable." none,
      state := s, upstreamCalls := 0 }
  else if hasFreshCache s t then
    { result := .success (s.payload.getD []) true false (t - s.fetchedAt) none,
      state := s, upstreamCalls := 0 }
  else
    let res := refreshCache s t o1
    let refreshed := res.1
    let s1 := res.2
    if refreshed && s1.payload.isSome then
      { result := .success (s1.payload.getD []) false false 0 none,
        state := s1, upstreamCalls := 1 }
    else if s1.payload.isSome then
      { result := .success (s1.payload.getD []) true true (t - s1.fetchedAt)
          (some "Serving stale cache while MARTA API recovers."),
        state := s1, upstreamCalls := 1 }
    else
      match fetchFromMarta o2 with
      | .ok payload =>
        let s2 : SysState α :=
          { s1 with payload := some payload, fetchedAt := t }
        { result := .success payload false false 0 none,
          state := s2, upstreamCalls := 2 }
      | .err status upstream =>
        { result := .error 500 ("MARTA API error (" ++ toString status ++ ").")
            (some upstream),
          state := s1, upstreamCalls := 2 }

/-!
## Event-loop model of concurrent callers (single-flight deduplication)

In the source, `refreshCache` runs synchronously (on the single JS thread)
up to its first suspension: a caller finding `inFlightRefresh` non-null
returns that same promise; otherwise it installs a new promise whose body
performs the one upstream fetch.  `N` callers arriving while the cache is
expired therefore each execute this synchronous prologue before the fetch
resolves; the resolution then delivers one shared boolean to every waiter.
-/

/-- Event-loop state for the concurrency model: the module state, whether an
`inFlightRefresh` promise exists, how many upstream fetches have been
started, and how many callers await the in-flight promise. -/
structure LoopState (α : Type) where
  sys : SysState α
  inFlight : Bool
  fetchCalls : Nat
  waiters : Nat

/-- The synchronous prologue of `refreshCache` for one caller: join the
in-flight promise if one exists, otherwise install a new one (starting the
single upstream fetch) and await it. -/
def enterRefresh {α : Type} (ls : LoopState α) : LoopState α :=
  if ls.inFlight then { ls with waiters := ls.waiters + 1 }
  else { ls with inFlight := true, fetchCalls := ls.fetchCalls + 1,
                 waiters := ls.waiters + 1 }

/-- Resolution of the in-flight promise: the single fetch completes with
result `r`, `refreshStep` updates the module state, and every waiter
receives the same boolean; the in-flight marker is cleared. -/
def resolveRefresh {α : Type} (ls : LoopState α) (t : Int)
    (r : UpstreamResult α) : List Bool × LoopState α :=
  let res := refreshStep ls.sys t r
  (List.replicate ls.waiters res.1,
   { sys := res.2, inFlight := false, fetchCalls := ls.fetchCalls, waiters := 0 })

/-- `n` concurrent callers invoke `refreshCache` while no refresh is in
flight, all before the fetch resolves; then the fetch resolves with `r`.
Returns the number of upstream fetches started and the list of outcomes the
callers receive. -/
def concurrentRefresh {α : Type} (s : SysState α) (n : Nat) (t : Int)
    (r : UpstreamResult α) : Nat × List Bool × SysState α :=
  let ls := enterRefresh^[n] ⟨s, false, 0, 0⟩
  let res := resolveRefresh ls t r
  (ls.fetchCalls, res.1, res.2.sys)

/-- The invariant of claim C10: whenever the retry timer is armed, the cache
payload is populated. -/
def Inv {α : Type} (s : SysState α) : Prop :=
  s.retryTimer.isSome → s.payload.isSome

/-! ## Basic lemmas about the state transformers -/

lemma scheduleRetry_payload {α : Type} (s : SysState α) :
    (scheduleRetry s).payload = s.payload := by
  unfold scheduleRetry; split <;> rfl

lemma scheduleRetry_fetchedAt {α : Type} (s : SysState α) :
    (scheduleRetry s).fetchedAt = s.fetchedAt := by
  unfold scheduleRetry; split <;> rfl

lemma refreshStep_err_fst {α : Type} (s : SysState α) (t : Int) (st : Nat)
    (u : String) : (refreshStep s t (.err st u)).1 = false := by
  simp only [refreshStep]
  split <;> rfl

lemma refreshStep_err_payload {α : Type} (s : SysState α) (t : Int) (st : Nat)
    (u : String) : (refreshStep s t (.err st u)).2.payload = s.payload := by
  simp only [refreshStep]
  split
  · exact scheduleRetry_payload s
  · rfl

lemma refreshStep_err_fetchedAt {α : Type} (s : SysState α) (t : Int) (st : Nat)
    (u : String) : (refreshStep s t (.err st u)).2.fetchedAt = s.fetchedAt := by
  simp only [refreshStep]
  split
  · exact scheduleRetry_fetchedAt s
  · rfl

lemma refreshStep_ok {α : Type} (s : SysState α) (t : Int) (p : List α) :
    refreshStep s t (.ok p) =
      (true, { payload := some p, fetchedAt := t, retryTimer := none }) := rfl

/-! ## Claim theorems -/

/-- C1: when the cache payload is present and younger than the 60000 ms TTL
(and a credential is configured, which the handler checks first), `GET`
returns the cached payload with `hit = true`, `stale = false`,
`ageMs = now - fetchedAt`, leaves the state untouched and performs no
upstream fetch. -/
theorem getArrivals_fresh_hit {α : Type} (apiKey : Option String)
    (s : SysState α) (t : Int) (o1 o2 : FetchOutcome α) (p : List α)
    (hk : missingKey apiKey = false)
    (hp : s.payload = some p)
    (hfresh : t - s.fetchedAt < CACHE_TTL_MS) :
    GET apiKey s t o1 o2 =
      { result := .success p true false (t - s.fetchedAt) none,
        state := s, upstreamCalls := 0 } := by
  have hf : hasFreshCache s t = true := by
    simp [hasFreshCache, hp, hfresh]
  simp [GET, hk, hf, hp]

/-- Witness for C1 at a concrete fresh-cache state. -/
theorem getArrivals_fresh_hit_witness :
    GET (some "key")
        ({ payload := some [7], fetchedAt := 0, retryTimer := none } : SysState Nat)
        30000 (.reject none) (.reject none) =
      { result := .success [7] true false 30000 none,
        state := { payload := some [7], fetchedAt := 0, retryTimer := none },
        upstreamCalls := 0 } := by
  have h := getArrivals_fresh_hit (some "key")
      ({ payload := some [7], fetchedAt := 0, retryTimer := none } : SysState Nat)
      30000 (.reject none) (.reject none) [7] rfl rfl (by decide)
  simpa using h

/-- C8: when no credential is configured (absent or empty env var), `GET`
returns the 500 missing-credential error, touches no state and performs no
upstream fetch — for every state, in particular states with a fresh cached
payload. -/
theorem getArrivals_missing_key {α : Type} (apiKey : Option String)
    (s : SysState α) (t : Int) (o1 o2 : FetchOutcome α)
    (hk : missingKey apiKey = true) :
    GET apiKey s t o1 o2 =
      { result := .error 500 "Missing MARTA_API_KEY environment variable." none,
        state := s, upstreamCalls := 0 } := by
  simp [GET, hk]

/-- Witness for C8: missing key wins even over a fresh cache. -/
theorem getArrivals_missing_key_witness :
    GET none
        ({ payload := some [7], fetchedAt := 0, retryTimer := none } : SysState Nat)
        5 (.reject none) (.reject none) =
      { result := .error 500 "Missing MARTA_API_KEY environment variable." none,
        state := { payload := some [7], fetchedAt := 0, retryTimer := none },
        upstreamCalls := 0 } :=
  getArrivals_missing_key none
    ({ payload := some [7], fetchedAt := 0, retryTimer := none } : SysState Nat)
    5 (.reject none) (.reject none) rfl

/-- C4: a failed refresh attempt leaves the cache entry (payload and
fetchedAt) completely unchanged, and a successful one replaces the whole
state atomically with the new payload and current timestamp. -/
theorem refreshStep_cache_atomic {α : Type} (s : SysState α) (t : Int)
    (st : Nat) (u : String) (p : List α) :
    (refreshStep s t (.err st u)).2.payload = s.payload ∧
    (refreshStep s t (.err st u)).2.fetchedAt = s.fetchedAt ∧
    refreshStep s t (.ok p) =
      (true, { payload := some p, fetchedAt := t, retryTimer := none }) :=
  ⟨refreshStep_err_payload s t st u, refreshStep_err_fetchedAt s t st u,
   refreshStep_ok s t p⟩

/-- C3 (amended): a refresh failure with status exactly 500 while a prior
payload exists leaves the retry timer armed; when it was not already armed,
it is armed with the `RETRY_INTERVAL_MS = 2000` ms delay (after which
`retryFire` re-invokes the refresh).  Other 5xx statuses arm no retry. -/
theorem refresh_500_arms_retry {α : Type} (s : SysState α) (t : Int)
    (u : String) (hp : s.payload.isSome = true) :
    (refreshStep s t (.err 500 u)).2.retryTimer.isSome = true ∧
    (s.retryTimer = none →
      (refreshStep s t (.err 500 u)).2.retryTimer = some RETRY_INTERVAL_MS) ∧
    RETRY_INTERVAL_MS = 2000 := by
  refine ⟨?_, ?_, rfl⟩
  · simp [refreshStep, hp, scheduleRetry]
    split <;> simp_all
  · intro hnone
    simp [refreshStep, hp, scheduleRetry, hnone]

/-- C2: with a populated but expired cache, when the refresh attempt fails
`GET` returns the previous payload with `hit = true`, `stale = true`,
`ageMs = now - fetchedAt` and the advisory stale-cache message; the result
is not an error and the cache entry is preserved. -/
theorem getArrivals_stale_fallback {α : Type} (apiKey : Option String)
    (s : SysState α) (t : Int) (o1 o2 : FetchOutcome α) (p : List α)
    (st : Nat) (u : String)
    (hk : missingKey apiKey = false)
    (hp : s.payload = some p)
    (hstale : ¬ t - s.fetchedAt < CACHE_TTL_MS)
    (hfail : fetchFromMarta o1 = .err st u) :
    (GET apiKey s t o1 o2).result =
      .success p true true (t - s.fetchedAt)
        (some "Serving stale cache while MARTA API recovers.") ∧
    (GET apiKey s t o1 o2).result.isError = false ∧
    (GET apiKey s t o1 o2).state.payload = some p ∧
    (GET apiKey s t o1 o2).state.fetchedAt = s.fetchedAt ∧
    (GET apiKey s t o1 o2).upstreamCalls = 1 := by
  have hf : hasFreshCache s t = false := by simp [hasFreshCache, hstale]
  have hr1 : (refreshCache s t o1).1 = false := by
    rw [refreshCache, hfail]; exact refreshStep_err_fst s t st u
  have hrp : (refreshCache s t o1).2.payload = some p := by
    rw [refreshCache, hfail, refreshStep_err_payload]; exact hp
  have hrf : (refreshCache s t o1).2.fetchedAt = s.fetchedAt := by
    rw [refreshCache, hfail]; exact refreshStep_err_fetchedAt s t st u
  refine ⟨?_, ?_, ?_, ?_, ?_⟩ <;>
    simp [GET, hk, hf, hr1, hrp, hrf, GetResult.isError]

/-- Witness for C2 at a concrete expired-cache state with a failing fetch. -/
theorem getArrivals_stale_fallback_witness :
    (GET (some "key")
        ({ payload := some [7], fetchedAt := 0, retryTimer := none } :
          SysState Nat) 61000 (.reject (some "boom")) (.reject none)).result =
      .success [7] true true 61000
        (some "Serving stale cache while MARTA API recovers.") ∧
    (GET (some "key")
        ({ payload := some [7], fetchedAt := 0, retryTimer := none } :
          SysState Nat) 61000 (.reject (some "boom"))
        (.reject none)).upstreamCalls = 1 := by
  have h := getArrivals_stale_fallback (some "key")
      ({ payload := some [7], fetchedAt := 0, retryTimer := none } : SysState Nat)
      61000 (.reject (some "boom")) (.reject none) [7] 500 "boom"
      rfl rfl (by decide) rfl
  exact ⟨by simpa using h.1, h.2.2.2.2⟩

/-- C5: when the cache is not fresh and the refresh's upstream fetch
succeeds, the cache is replaced with the new payload and current timestamp,
the retry timer is disarmed, and `GET` returns the new payload with
`hit = false`, `stale = false`, `ageMs = 0`. -/
theorem getArrivals_refresh_success {α : Type} (apiKey : Option String)
    (s : SysState α) (t : Int) (o1 o2 : FetchOutcome α) (p : List α)
    (hk : missingKey apiKey = false)
    (hnf : hasFreshCache s t = false)
    (hok : fetchFromMarta o1 = .ok p) :
    GET apiKey s t o1 o2 =
      { result := .success p false false 0 none,
        state := { payload := some p, fetchedAt := t, retryTimer := none },
        upstreamCalls := 1 } := by
  have hr : refreshCache s t o1 =
      (true, { payload := some p, fetchedAt := t, retryTimer := none }) := by
    rw [refreshCache, hok]; exact refreshStep_ok s t p
  simp [GET, hk, hnf, hr]

/-- Witness for C5: a cold-cache call with a successful fetch, starting from
a state with an armed retry timer (which the success disarms). -/
theorem getArrivals_refresh_success_witness :
    GET (some "key")
        ({ payload := some [9], fetchedAt := 0, retryTimer := some 2000 } :
          SysState Nat) 61000
        (.resolve { ok := true, status := 200, textResult := some "",
                    jsonResult := .ok [1, 2] }) (.reject none) =
      { result := .success [1, 2] false false 0 none,
        state := { payload := some [1, 2], fetchedAt := 61000,
                   retryTimer := none },
        upstreamCalls := 1 } :=
  getArrivals_refresh_success (some "key")
    ({ payload := some [9], fetchedAt := 0, retryTimer := some 2000 } :
      SysState Nat) 61000
    (.resolve { ok := true, status := 200, textResult := some "",
                jsonResult := .ok [1, 2] }) (.reject none) [1, 2]
    rfl (by decide) rfl

/-- C6: with an empty cache and a failing refresh, `GET` makes one further
synchronous upstream attempt (two fetches in total); when that one fails
with status 503 the handler returns the 500 error response whose message
carries the upstream status 503 and whose `upstream` field carries the
detail, and the state — in particular the retry timer — is unchanged. -/
theorem getArrivals_cold_start_failure {α : Type} (apiKey : Option String)
    (s : SysState α) (t : Int) (o1 o2 : FetchOutcome α)
    (st1 : Nat) (u1 u2 : String)
    (hk : missingKey apiKey = false)
    (hempty : s.payload = none)
    (hfail1 : fetchFromMarta o1 = .err st1 u1)
    (hfail2 : fetchFromMarta o2 = .err 503 u2) :
    GET apiKey s t o1 o2 =
      { result := .error 500 "MARTA API error (503)." (some u2),
        state := s, upstreamCalls := 2 } ∧
    (GET apiKey s t o1 o2).state.retryTimer = s.retryTimer := by
  have hf : hasFreshCache s t = false := by simp [hasFreshCache, hempty]
  have hr : refreshCache s t o1 = (false, s) := by
    rw [refreshCache, hfail1]; simp [refreshStep, hempty]
  have hmsg : ("MARTA API error (" ++ toString (503 : Nat) ++ ").") =
      "MARTA API error (503)." := rfl
  have hmain : GET apiKey s t o1 o2 =
      { result := .error 500 "MARTA API error (503)." (some u2),
        state := s, upstreamCalls := 2 } := by
    simp [GET, hk, hf, hr, hempty, hfail2, hmsg]
  exact ⟨hmain, by rw [hmain]⟩

/-- Witness for C6: cold start against an upstream answering 503. -/
theorem getArrivals_cold_start_failure_witness :
    GET (some "key") (initState Nat) 5
        (.resolve { ok := false, status := 503,
                    textResult := some "Service Unavailable",
                    jsonResult := .ok [] })
        (.resolve { ok := false, status := 503,
                    textResult := some "Service Unavailable",
                    jsonResult := .ok [] }) =
      { result := .error 500 "MARTA API error (503)."
          (some "Service Unavailable"),
        state := initState Nat, upstreamCalls := 2 } :=
  (getArrivals_cold_start_failure (some "key") (initState Nat) 5
    (.resolve { ok := false, status := 503,
                textResult := some "Service Unavailable",
                jsonResult := .ok [] })
    (.resolve { ok := false, status := 503,
                textResult := some "Service Unavailable",
                jsonResult := .ok [] })
    503 "Service Unavailable" "Service Unavailable"
    rfl rfl (by decide) (by decide)).1

/-- Witness for C3 at a concrete populated-cache state. -/
theorem refresh_500_arms_retry_witness :
    (refreshStep ({ payload := some [7], fetchedAt := 0, retryTimer := none } :
        SysState Nat) 61000 (.err 500 "boom")).2.retryTimer.isSome = true ∧
    (({ payload := some [7], fetchedAt := 0, retryTimer := none } :
        SysState Nat).retryTimer = none →
      (refreshStep ({ payload := some [7], fetchedAt := 0, retryTimer := none } :
          SysState Nat) 61000 (.err 500 "boom")).2.retryTimer =
        some RETRY_INTERVAL_MS) ∧
    RETRY_INTERVAL_MS = 2000 :=
  refresh_500_arms_retry
    ({ payload := some [7], fetchedAt := 0, retryTimer := none } : SysState Nat)
    61000 "boom" rfl

/-- C3 counterexample: the source arms a retry only on status exactly 500,
so a refresh failure with the 5xx status 503 — while a prior payload exists
and no timer is pending — leaves the retry timer unarmed. -/
theorem refresh_503_arms_no_retry :
    (refreshStep
      ({ payload := some [7], fetchedAt := 0, retryTimer := none } : SysState Nat)
      61000 (.err 503 "Service Unavailable")).2.retryTimer = none := by decide

/-! ## Lemmas for the event-loop model -/

lemma enterRefresh_inflight {α : Type} (s : SysState α) (c m : Nat) :
    ∀ k : Nat, enterRefresh^[m] (⟨s, true, c, k⟩ : LoopState α) =
      ⟨s, true, c, k + m⟩ := by
  induction m with
  | zero => intro k; rfl
  | succ m ih =>
    intro k
    have h1 : enterRefresh (⟨s, true, c, k⟩ : LoopState α) =
        ⟨s, true, c, k + 1⟩ := by
      simp [enterRefresh]
    rw [Function.iterate_succ_apply, h1, ih (k + 1)]
    congr 1
    omega

lemma enterRefresh_iterate {α : Type} (s : SysState α) (n : Nat) (hn : 0 < n) :
    enterRefresh^[n] (⟨s, false, 0, 0⟩ : LoopState α) = ⟨s, true, 1, n⟩ := by
  obtain ⟨m, rfl⟩ : ∃ m, n = m + 1 := ⟨n - 1, by omega⟩
  have h0 : enterRefresh (⟨s, false, 0, 0⟩ : LoopState α) = ⟨s, true, 1, 1⟩ := by
    simp [enterRefresh]
  rw [Function.iterate_succ_apply, h0, enterRefresh_inflight s 1 m 1]
  congr 1
  omega

/-- C7: `n ≥ 1` concurrent callers entering `refreshCache` after expiry start
exactly one upstream fetch; every caller receives the same outcome of that
single call (the shared promise's boolean), and the state update is the one
`refreshStep` performs on that single result. -/
theorem single_flight {α : Type} (s : SysState α) (n : Nat) (t : Int)
    (r : UpstreamResult α) (hn : 0 < n) :
    (concurrentRefresh s n t r).1 = 1 ∧
    (concurrentRefresh s n t r).2.1 = List.replicate n (refreshStep s t r).1 ∧
    (concurrentRefresh s n t r).2.2 = (refreshStep s t r).2 := by
  unfold concurrentRefresh
  rw [enterRefresh_iterate s n hn]
  exact ⟨rfl, rfl, rfl⟩

/-- Witness for C7: three concurrent callers, one failing fetch, all three
observe the same `false` outcome from the single upstream call. -/
theorem single_flight_witness :
    (concurrentRefresh (initState Nat) 3 0 (.err 503 "down")).1 = 1 ∧
    (concurrentRefresh (initState Nat) 3 0 (.err 503 "down")).2.1 =
      List.replicate 3 (refreshStep (initState Nat) 0
        (.err 503 "down")).1 ∧
    (concurrentRefresh (initState Nat) 3 0 (.err 503 "down")).2.2 =
      (refreshStep (initState Nat) 0 (.err 503 "down")).2 :=
  single_flight (initState Nat) 3 0 (.err 503 "down") (by decide)

/-! ## Lemmas for the invariant and exception-totality claims -/

lemma scheduleRetry_timer_isSome {α : Type} (s : SysState α) :
    (scheduleRetry s).retryTimer.isSome = true := by
  unfold scheduleRetry
  split
  · assumption
  · rfl

lemma refreshStep_err500_timer {α : Type} (s : SysState α) (t : Int)
    (u : String) (hp : s.payload.isSome = true) :
    (refreshStep s t (.err 500 u)).2.retryTimer.isSome = true := by
  simp only [refreshStep]
  split
  · exact scheduleRetry_timer_isSome s
  · rename_i hcond
    rw [hp] at hcond
    simp at hcond

/-- C9: whenever the transport promise rejects or the JSON body fails to
parse, `fetchFromMarta` absorbs the exception into a typed failure with
status 500; consequently, with a populated cache, a refresh hitting such an
outcome arms the retry timer rather than surfacing an exception or a
distinct permanent-error status. -/
theorem fetch_exceptions_are_500 {α : Type} (o : FetchOutcome α)
    (h : o.raises = true) :
    ∃ m, fetchFromMarta o = .err 500 m ∧
      ∀ (s : SysState α) (t : Int), s.payload.isSome = true →
        (refreshStep s t (fetchFromMarta o)).2.retryTimer.isSome = true := by
  cases o with
  | reject e =>
    refine ⟨e.getD "Unknown error.", rfl, ?_⟩
    intro s t hp
    exact refreshStep_err500_timer s t (e.getD "Unknown error.") hp
  | resolve r =>
    simp only [FetchOutcome.raises, Bool.and_eq_true] at h
    obtain ⟨hok, hjson⟩ := h
    cases hj : r.jsonResult with
    | ok p => rw [hj] at hjson; simp at hjson
    | error m =>
      have hfetch : fetchFromMarta (.resolve r) = .err 500 m := by
        simp [fetchFromMarta, hok, hj]
      refine ⟨m, hfetch, ?_⟩
      intro s t hp
      rw [hfetch]
      exact refreshStep_err500_timer s t m hp

/-- Witness for C9: a rejecting transport (network failure) at a concrete
populated-cache state. -/
theorem fetch_exceptions_are_500_witness :
    ∃ m, fetchFromMarta (α := Nat) (.reject (some "network down")) =
        .err 500 m ∧
      ∀ (s : SysState Nat) (t : Int), s.payload.isSome = true →
        (refreshStep s t
          (fetchFromMarta (.reject (some "network down")))).2.retryTimer.isSome
            = true :=
  fetch_exceptions_are_500 (.reject (some "network down")) rfl

lemma inv_of_payload {α : Type} (s : SysState α)
    (h : s.payload.isSome = true) : Inv s := fun _ => h

lemma refreshStep_inv {α : Type} (s : SysState α) (t : Int)
    (r : UpstreamResult α) (h : Inv s) : Inv (refreshStep s t r).2 := by
  cases r with
  | ok p => intro _; rfl
  | err st u =>
    simp only [refreshStep]
    split
    · rename_i hc
      rw [Bool.and_eq_true] at hc
      intro _
      rw [scheduleRetry_payload]
      exact hc.1
    · exact h

lemma refreshStep_mono {α : Type} (s : SysState α) (t : Int)
    (r : UpstreamResult α) (h : s.payload.isSome = true) :
    (refreshStep s t r).2.payload.isSome = true := by
  cases r with
  | ok p => rfl
  | err st u => rw [refreshStep_err_payload]; exact h

lemma GET_state_cases {α : Type} (k : Option String) (s : SysState α)
    (t : Int) (o1 o2 : FetchOutcome α) :
    (GET k s t o1 o2).state = s ∨
    (GET k s t o1 o2).state = (refreshCache s t o1).2 ∨
    (∃ p, (GET k s t o1 o2).state =
      { (refreshCache s t o1).2 with payload := some p, fetchedAt := t }) := by
  simp only [GET]
  split
  · exact .inl rfl
  · split
    · exact .inl rfl
    · split
      · exact .inr (.inl rfl)
      · split
        · exact .inr (.inl rfl)
        · split
          · exact .inr (.inr ⟨_, rfl⟩)
          · exact .inr (.inl rfl)

lemma GET_state_inv {α : Type} (k : Option String) (s : SysState α) (t : Int)
    (o1 o2 : FetchOutcome α) (h : Inv s) : Inv (GET k s t o1 o2).state := by
  rcases GET_state_cases k s t o1 o2 with hc | hc | ⟨p, hc⟩ <;> rw [hc]
  · exact h
  · exact refreshStep_inv s t _ h
  · exact inv_of_payload _ rfl

lemma GET_state_mono {α : Type} (k : Option String) (s : SysState α) (t : Int)
    (o1 o2 : FetchOutcome α) (h : s.payload.isSome = true) :
    (GET k s t o1 o2).state.payload.isSome = true := by
  rcases GET_state_cases k s t o1 o2 with hc | hc | ⟨p, hc⟩ <;> rw [hc]
  · exact h
  · exact refreshStep_mono s t _ h
  · rfl

lemma retryFire_payload {α : Type} (s : SysState α) (t : Int)
    (o : FetchOutcome α) (hp : s.payload.isSome = true) :
    (retryFire s t o).payload.isSome = true := by
  simp only [retryFire]
  split
  · exact refreshStep_mono { s with retryTimer := none } t _ hp
  · rw [scheduleRetry_payload]
    exact refreshStep_mono { s with retryTimer := none } t _ hp

/-- C10: the invariant "retry timer armed implies cache populated" holds of
the initial state and is preserved by `refreshStep` (hence `refreshCache`),
by `GET`, and by the retry timer's callback (which only ever runs from a
state whose timer is armed); moreover, once the payload is populated, none
of the three operations ever empties it again. -/
theorem retry_timer_invariant {α : Type} (k : Option String) (s : SysState α)
    (t : Int) (r : UpstreamResult α) (o o1 o2 : FetchOutcome α)
    (h : Inv s) :
    Inv (initState α) ∧
    Inv (refreshStep s t r).2 ∧
    Inv (GET k s t o1 o2).state ∧
    (s.retryTimer.isSome = true → Inv (retryFire s t o)) ∧
    (s.payload.isSome = true →
      (refreshStep s t r).2.payload.isSome = true ∧
      (GET k s t o1 o2).state.payload.isSome = true ∧
      (retryFire s t o).payload.isSome = true) := by
  refine ⟨fun hx => by simp [initState] at hx, refreshStep_inv s t r h,
    GET_state_inv k s t o1 o2 h, ?_, ?_⟩
  · intro harmed
    exact inv_of_payload _ (retryFire_payload s t o (h harmed))
  · intro hp
    exact ⟨refreshStep_mono s t r hp, GET_state_mono k s t o1 o2 hp,
      retryFire_payload s t o hp⟩

/-- Witness for C10 at a concrete armed-timer state with a populated cache. -/
theorem retry_timer_invariant_witness :
    Inv (initState Nat) ∧
    Inv (refreshStep armedState 61000 (.err 500 "boom")).2 ∧
    Inv (GET (some "key") armedState 61000 (.reject none)
      (.reject none)).state ∧
    (armedState.retryTimer.isSome = true →
      Inv (retryFire armedState 61000 (.reject none))) ∧
    (armedState.payload.isSome = true →
      (refreshStep armedState 61000
        (.err 500 "boom")).2.payload.isSome = true ∧
      (GET (some "key") armedState 61000 (.reject none)
        (.reject none)).state.payload.isSome = true ∧
      (retryFire armedState 61000 (.reject none)).payload.isSome = true) :=
  retry_timer_invariant (some "key") armedState 61000 (.err 500 "boom")
    (.reject none) (.reject none) (.reject none) (fun _ => rfl)

end Marta
